import Mathlib

/-!
Verification development for the Maggot_Project PMI (post-mortem interval)
calculators.

The repository contains two accumulated-degree-hour (ADH) back-calculation
engines and one body-cooling estimator:

* `MasterPMICalculatorV16.calculate` (app.py): reverse-time ADH accumulation
  with soil damping, a dynamic maggot-mass self-heating curve
  (`get_dynamic_heat`), solar exposure, a bounded transient event window,
  LDT/UDT clamping and a growth-rate multiplier, producing an onset estimate,
  a total, and a full per-sample trace.
* `BasicPMICalculator.calculate_pmi` (main.py): a simpler validated engine
  with only LDT clamping and a growth-rate multiplier.
* `HenssgeCalculator.calculate` (app.py): a closed-form cooling estimator.

Timestamps are modelled as rationals measured in hours (Python datetimes with
differences taken via total_seconds()/3600), and all float arithmetic is
modelled exactly over the rationals; the cooling estimator, which uses a real
logarithm and a real power, is modelled over the reals.  A Python exception
escaping a function (a KeyError from an unvalidated dict lookup) is modelled
as an `Except.error` result, distinct from the tagged result values the code
returns deliberately.
-/

/-- One row of the weather series: a timestamp (hours) and a temperature. -/
structure WeatherRow where
  time : ℚ
  temp : ℚ
  deriving DecidableEq

/-- The soil_params dict consumed by MasterPMICalculatorV16.calculate. -/
structure SoilParams where
  active : Bool
  use_measured : Bool
  measured_temp : ℚ
  depth : ℚ
  deriving DecidableEq

/-- The event_params dict consumed by MasterPMICalculatorV16.calculate. -/
structure EventParams where
  active : Bool
  temp_increase : ℚ
  duration : ℚ
  end_hours_ago : ℚ
  deriving DecidableEq

/-- One record of the adh_history trace appended per processed sample. -/
structure TraceRec where
  Time : ℚ
  Base_Temp : ℚ
  Final_Temp : ℚ
  Applied_Maggot_Heat : ℚ
  Accumulated_ADH_Reverse : ℚ
  Target_ADH : ℚ
  Overheat_Status : Bool
  Event_Active : Bool
  deriving DecidableEq

/-- One entry of the insect_db of app.py: thresholds and the stage table
(the presentation-only "Type"/"Source" strings of the dict are omitted). -/
structure SpeciesData where
  LDT : ℚ
  UDT : ℚ
  stages : List (String × ℚ)
  deriving DecidableEq

/-- One entry of the insect_db of main.py. -/
structure BasicSpecies where
  name : String
  LDT : ℚ
  stages : List (String × ℚ)
  deriving DecidableEq

/-- A Python exception escaping a function (here: KeyError on dict lookup). -/
inductive PyError where
  | keyError (key : String)
  deriving DecidableEq

/-- The tagged dict returned by BasicPMICalculator.calculate_pmi: a
validation error, a success record, or the insufficient-data failure. -/
inductive PMIResult where
  | error (msg : String)
  | success (species : String) (estimated_death_time total_adh_accumulated hours_ago : ℚ)
  | fail (msg : String)
  deriving DecidableEq

/-- Python dict .get(key, 0) on a stage table. -/
def stageGetD (stages : List (String × ℚ)) (k : String) : ℚ :=
  (List.lookup k stages).getD 0

namespace MasterPMICalculatorV16

/-- The insect_db dict of MasterPMICalculatorV16.__init__. -/
def insect_db : List (String × SpeciesData) :=
  [("Lucilia sericata (Global/Avg)",
    { LDT := 9.0, UDT := 35.0,
      stages := [("egg", 20), ("instar_1", 300), ("instar_2", 800),
                 ("instar_3_feed", 1400), ("instar_3_wander", 2400), ("pupa", 4000)] }),
   ("Lucilia sericata (Korea - Busan)",
    { LDT := 4.5, UDT := 35.0,
      stages := [("egg", 35), ("instar_1", 150), ("instar_2", 350),
                 ("instar_3_feed", 550), ("instar_3_wander", 702),
                 ("pupa", 4901), ("adult", 6483)] }),
   ("Chrysomya megacephala (대동파리)",
    { LDT := 10.0, UDT := 40.0,
      stages := [("egg", 15), ("instar_1", 300), ("instar_2", 700),
                 ("instar_3_feed", 1300), ("instar_3_wander", 2200), ("pupa", 3800)] })]

/-- Embedding of MasterPMICalculatorV16.get_dynamic_heat: the stage-dependent
self-heating amount as a function of the biological age (in ADH). -/
def get_dynamic_heat (current_bio_adh : ℚ) (stages : List (String × ℚ)) (max_heat : ℚ) : ℚ :=
  if current_bio_adh < stageGetD stages "instar_1" then 0.0
  else if current_bio_adh < stageGetD stages "instar_2" then max_heat * 0.3
  else if current_bio_adh < stageGetD stages "instar_3_feed" then max_heat * 1.0
  else if current_bio_adh < stageGetD stages "instar_3_wander" then max_heat * 0.2
  else 0.0

end MasterPMICalculatorV16

/-- Soil damping body of MasterPMICalculatorV16.calculate (the branch taken
when soil correction is active): either the measured soil temperature
verbatim, or the depth-damped blend toward the mean air temperature with the
extra cooling term applied above 20 degrees. -/
def soilTemp (sp : SoilParams) (base_temp avg_air_temp : ℚ) : ℚ :=
  if sp.use_measured then sp.measured_temp
  else
    let damp := min 1.0 (sp.depth * 0.015)
    let blended := base_temp * (1 - damp) + avg_air_temp * damp
    if base_temp > 20 then blended - sp.depth * 0.05 else blended

/-- The soil correction including its activation guard (soil_params is None
or inactive leaves the base temperature unchanged). -/
def soilStep (soil_params : Option SoilParams) (base_temp avg_air_temp : ℚ) : ℚ :=
  match soil_params with
  | some sp => if sp.active then soilTemp sp base_temp avg_air_temp else base_temp
  | none => base_temp

/-- Dynamic maggot-mass heat of one loop iteration: the virtual age is the
remaining distance to target clamped at zero, and the heat is applied only
when max_maggot_heat is strictly positive. -/
def dynamicHeatStep (max_maggot_heat target_adh accumulated_adh : ℚ)
    (stages : List (String × ℚ)) : ℚ :=
  let virtual_age_adh := target_adh - accumulated_adh
  let virtual_age_adh := if virtual_age_adh < 0 then 0 else virtual_age_adh
  if max_maggot_heat > 0 then
    MasterPMICalculatorV16.get_dynamic_heat virtual_age_adh stages max_maggot_heat
  else 0.0

/-- Transient event correction of one loop iteration: the added temperature
delta and the is_event flag, as a function of hours_diff (hours before the
discovery time). -/
def eventStep (event_params : Option EventParams) (hours_diff : ℚ) : ℚ × Bool :=
  match event_params with
  | some ep =>
    if ep.active then
      if ep.end_hours_ago ≤ hours_diff ∧ hours_diff ≤ ep.end_hours_ago + ep.duration then
        (ep.temp_increase, true)
      else (0, false)
    else (0, false)
  | none => (0, false)

/-- ADH classification of MasterPMICalculatorV16.calculate step 4: the pair
(eff_heat, is_over) computed from the fully corrected temperature. -/
def classifyHeat (ldt udt correction current_temp : ℚ) : ℚ × Bool :=
  if current_temp ≥ udt then (0, true)
  else if current_temp > ldt then ((current_temp - ldt) * correction, false)
  else (0, false)

/-- Discovery time: df_weather['Time'].max(). -/
def discoveryTime (rows : List WeatherRow) : ℚ :=
  rows.foldl (fun m r => max m r.time) ((rows.headD ⟨0, 0⟩).time)

/-- Mean air temperature: df_weather['Temp'].mean(). -/
def avgTemp (rows : List WeatherRow) : ℚ :=
  (rows.map (fun r => r.temp)).sum / (rows.length : ℚ)

/-- All loop-invariant inputs of one run of MasterPMICalculatorV16.calculate
(correction context plus the precomputed discovery time and mean). -/
structure EngineCtx where
  ldt : ℚ
  udt : ℚ
  correction : ℚ
  max_maggot_heat : ℚ
  sun_exposure : ℚ
  event_params : Option EventParams
  soil_params : Option SoilParams
  stages : List (String × ℚ)
  target_adh : ℚ
  discovery_time : ℚ
  avg_air_temp : ℚ
  deriving DecidableEq

/-- Fully corrected temperature of one loop iteration: soil damping, then
dynamic heat, then solar exposure, then the event delta, in source order. -/
def effectiveTemp (c : EngineCtx) (accumulated_adh : ℚ) (row : WeatherRow) : ℚ :=
  soilStep c.soil_params row.temp c.avg_air_temp
    + dynamicHeatStep c.max_maggot_heat c.target_adh accumulated_adh c.stages
    + c.sun_exposure
    + (eventStep c.event_params (c.discovery_time - row.time)).1

/-- The eff_heat added to the accumulator by one sample. -/
def sampleHeat (c : EngineCtx) (accumulated_adh : ℚ) (row : WeatherRow) : ℚ :=
  (classifyHeat c.ldt c.udt c.correction (effectiveTemp c accumulated_adh row)).1

/-- The accumulator after processing one sample. -/
def stepAcc (c : EngineCtx) (accumulated_adh : ℚ) (row : WeatherRow) : ℚ :=
  accumulated_adh + sampleHeat c accumulated_adh row

/-- The adh_history record appended for one sample (Python appends it after
the accumulator update, so it carries the post-update accumulator). -/
def sampleStep (c : EngineCtx) (accumulated_adh : ℚ) (row : WeatherRow) : TraceRec :=
  { Time := row.time
    Base_Temp := row.temp
    Final_Temp := effectiveTemp c accumulated_adh row
    Applied_Maggot_Heat := dynamicHeatStep c.max_maggot_heat c.target_adh accumulated_adh c.stages
    Accumulated_ADH_Reverse := stepAcc c accumulated_adh row
    Target_ADH := c.target_adh
    Overheat_Status := (classifyHeat c.ldt c.udt c.correction (effectiveTemp c accumulated_adh row)).2
    Event_Active := (eventStep c.event_params (c.discovery_time - row.time)).2 }

/-- The reverse-time accumulation loop of MasterPMICalculatorV16.calculate:
returns (estimated_oviposition_time, accumulated_adh, adh_history).  The loop
breaks at the first sample whose post-update accumulator reaches target. -/
def calcLoop (c : EngineCtx) : ℚ → List WeatherRow → Option ℚ × ℚ × List TraceRec
  | accumulated_adh, [] => (none, accumulated_adh, [])
  | accumulated_adh, row :: rest =>
    if stepAcc c accumulated_adh row ≥ c.target_adh then
      (some row.time, stepAcc c accumulated_adh row, [sampleStep c accumulated_adh row])
    else
      ((calcLoop c (stepAcc c accumulated_adh row) rest).1,
       (calcLoop c (stepAcc c accumulated_adh row) rest).2.1,
       sampleStep c accumulated_adh row :: (calcLoop c (stepAcc c accumulated_adh row) rest).2.2)

/-- The engine context built by MasterPMICalculatorV16.calculate from a
species table entry and the call arguments. -/
def engineCtx (data : SpeciesData) (target_adh correction max_maggot_heat sun_exposure : ℚ)
    (event_params : Option EventParams) (soil_params : Option SoilParams)
    (df_weather : List WeatherRow) : EngineCtx :=
  { ldt := data.LDT
    udt := data.UDT
    correction := correction
    max_maggot_heat := max_maggot_heat
    sun_exposure := sun_exposure
    event_params := event_params
    soil_params := soil_params
    stages := data.stages
    target_adh := target_adh
    discovery_time := discoveryTime df_weather
    avg_air_temp := avgTemp df_weather }

namespace MasterPMICalculatorV16

/-- Embedding of MasterPMICalculatorV16.calculate.  The two dict lookups
(insect_db[species_name] and stages[stage]) are unvalidated in the source and
raise KeyError on a missing key; that exception is modelled as Except.error. -/
def calculate (species_name stage : String) (df_weather : List WeatherRow)
    (correction max_maggot_heat sun_exposure : ℚ)
    (event_params : Option EventParams) (soil_params : Option SoilParams) :
    Except PyError (Option ℚ × ℚ × List TraceRec) :=
  match List.lookup species_name insect_db with
  | none => Except.error (PyError.keyError species_name)
  | some data =>
    match List.lookup stage data.stages with
    | none => Except.error (PyError.keyError stage)
    | some target_adh =>
      Except.ok (calcLoop
        (engineCtx data target_adh correction max_maggot_heat sun_exposure
          event_params soil_params df_weather) 0 df_weather)

end MasterPMICalculatorV16

/-- Hourly contribution of BasicPMICalculator.calculate_pmi: the effective
temperature above LDT times the correction factor, zero at or below LDT. -/
def basicHeat (ldt correction_factor temp : ℚ) : ℚ :=
  if temp - ldt > 0 then (temp - ldt) * correction_factor else 0

/-- The accumulator after one sample of the basic engine. -/
def basicStep (ldt correction_factor : ℚ) (accumulated_heat : ℚ) (r : WeatherRow) : ℚ :=
  accumulated_heat + basicHeat ldt correction_factor r.temp

/-- The back-calculation loop of BasicPMICalculator.calculate_pmi:
returns (estimated_time, accumulated_heat). -/
def basicLoop (ldt correction_factor target_adh : ℚ) :
    ℚ → List WeatherRow → Option ℚ × ℚ
  | accumulated_heat, [] => (none, accumulated_heat)
  | accumulated_heat, r :: rs =>
    if basicStep ldt correction_factor accumulated_heat r ≥ target_adh then
      (some r.time, basicStep ldt correction_factor accumulated_heat r)
    else
      basicLoop ldt correction_factor target_adh
        (basicStep ldt correction_factor accumulated_heat r) rs

namespace BasicPMICalculator

/-- The insect_db dict of BasicPMICalculator.__init__. -/
def insect_db : List (String × BasicSpecies) :=
  [("lucilia_sericata",
    { name := "구리금파리", LDT := 9.0,
      stages := [("egg", 23), ("instar_1", 400), ("instar_2", 900),
                 ("instar_3", 2000), ("pupa", 4500)] }),
   ("chrysomya_megacephala",
    { name := "대동파리", LDT := 10.0,
      stages := [("egg", 18), ("instar_1", 350), ("instar_2", 800),
                 ("instar_3", 1800), ("pupa", 4000)] })]

/-- Embedding of BasicPMICalculator.calculate_pmi: species and stage are
validated against the table and reported as tagged error dicts; exhaustion of
the series yields the tagged fail dict, success carries the estimate. -/
def calculate_pmi (species_key current_stage : String) (weather_data : List WeatherRow)
    (correction_factor : ℚ) : PMIResult :=
  match List.lookup species_key insect_db with
  | none => PMIResult.error "알 수 없는 파리 종류입니다."
  | some species_info =>
    match List.lookup current_stage species_info.stages with
    | none => PMIResult.error "알 수 없는 성장 단계입니다."
    | some target_adh =>
      match basicLoop species_info.LDT correction_factor target_adh 0 weather_data with
      | (some estimated_time, accumulated_heat) =>
        PMIResult.success species_info.name estimated_time accumulated_heat
          ((weather_data.headD ⟨0, 0⟩).time - estimated_time)
      | (none, _) =>
        PMIResult.fail "데이터 기간 내에서 사망 시점을 특정할 수 없습니다. (데이터 부족)"

end BasicPMICalculator

namespace HenssgeCalculator

/-- Embedding of HenssgeCalculator.calculate over the reals: none models the
(None, message) invalid-input return, some carries (estimated_hours,
confidence_interval). -/
noncomputable def calculate (rectal_temp ambient_temp body_weight clothing_factor : ℝ) :
    Option (ℝ × ℝ) :=
  if rectal_temp - ambient_temp ≤ 0 ∨ 37.2 - ambient_temp ≤ 0 then none
  else
    let total_factor := Real.rpow (body_weight / 70.0) 0.333 * clothing_factor
    let y := (rectal_temp - ambient_temp) / (37.2 - ambient_temp)
    let estimated_hours := if y ≥ 1.0 then 0 else -10.0 * Real.log y * total_factor
    some (estimated_hours, 2.0 + estimated_hours * 0.1)

end HenssgeCalculator

/-!
Proof layer: a generic first-hit view of both accumulation loops, plus small
facts about the fold maximum used for the discovery time.
-/

/-- Generic first-hit search: the timestamp of the first sample whose
post-update accumulator reaches target, scanning in list order. -/
def firstHit (step : ℚ → WeatherRow → ℚ) (target_adh : ℚ) :
    ℚ → List WeatherRow → Option ℚ
  | _, [] => none
  | acc, r :: rs =>
    if step acc r ≥ target_adh then some r.time
    else firstHit step target_adh (step acc r) rs

theorem calcLoop_fst (c : EngineCtx) :
    ∀ (rows : List WeatherRow) (acc : ℚ),
      (calcLoop c acc rows).1 = firstHit (stepAcc c) c.target_adh acc rows := by
  intro rows
  induction rows with
  | nil => intro acc; rfl
  | cons r rs ih =>
    intro acc
    by_cases h : stepAcc c acc r ≥ c.target_adh
    · simp [calcLoop, firstHit, h]
    · simp [calcLoop, firstHit, h, ih]

theorem basicLoop_fst (ldt corr target_adh : ℚ) :
    ∀ (rows : List WeatherRow) (acc : ℚ),
      (basicLoop ldt corr target_adh acc rows).1
        = firstHit (basicStep ldt corr) target_adh acc rows := by
  intro rows
  induction rows with
  | nil => intro acc; rfl
  | cons r rs ih =>
    intro acc
    by_cases h : basicStep ldt corr acc r ≥ target_adh
    · simp [basicLoop, firstHit, h]
    · simp [basicLoop, firstHit, h, ih]

theorem firstHit_eq_none_iff (step : ℚ → WeatherRow → ℚ) (target_adh : ℚ) :
    ∀ (rows : List WeatherRow) (acc : ℚ),
      firstHit step target_adh acc rows = none
        ↔ ∀ n < rows.length, (rows.take (n + 1)).foldl step acc < target_adh := by
  intro rows
  induction rows with
  | nil => intro acc; simp [firstHit]
  | cons r rs ih =>
    intro acc
    by_cases h : step acc r ≥ target_adh
    · simp only [firstHit, if_pos h]
      constructor
      · intro hcontra; exact absurd hcontra (by simp)
      · intro hall
        have h0 := hall 0 (by simp)
        simp at h0
        exact absurd h (not_le.mpr h0)
    · simp only [firstHit, if_neg h]
      rw [ih (step acc r)]
      constructor
      · intro hall n hn
        match n with
        | 0 => simpa using lt_of_not_ge h
        | Nat.succ m =>
          have hm : m < rs.length := by simpa using hn
          simpa using hall m hm
      · intro hall n hn
        have := hall (n + 1) (by simpa using hn)
        simpa using this

theorem firstHit_eq_some_iff (step : ℚ → WeatherRow → ℚ) (target_adh : ℚ) :
    ∀ (rows : List WeatherRow) (acc t : ℚ),
      firstHit step target_adh acc rows = some t
        ↔ ∃ n row, rows[n]? = some row
            ∧ (∀ m < n, (rows.take (m + 1)).foldl step acc < target_adh)
            ∧ target_adh ≤ (rows.take (n + 1)).foldl step acc
            ∧ t = row.time := by
  intro rows
  induction rows with
  | nil => intro acc t; simp [firstHit]
  | cons r rs ih =>
    intro acc t
    by_cases h : step acc r ≥ target_adh
    · simp only [firstHit, if_pos h]
      constructor
      · intro ht
        refine ⟨0, r, by simp, by simp, by simpa using h, ?_⟩
        simpa [eq_comm] using ht
      · rintro ⟨n, row, hrow, hbefore, hafter, hteq⟩
        match n with
        | 0 =>
          simp at hrow
          simp [hteq, hrow]
        | Nat.succ m =>
          have h0 := hbefore 0 (Nat.succ_pos m)
          simp at h0
          exact absurd h (not_le.mpr h0)
    · simp only [firstHit, if_neg h]
      rw [ih (step acc r) t]
      constructor
      · rintro ⟨n, row, hrow, hbefore, hafter, hteq⟩
        refine ⟨n + 1, row, by simpa using hrow, ?_, by simpa using hafter, hteq⟩
        intro m hm
        match m with
        | 0 => simpa using lt_of_not_ge h
        | Nat.succ k =>
          have hk : k < n := by omega
          simpa using hbefore k hk
      · rintro ⟨n, row, hrow, hbefore, hafter, hteq⟩
        match n with
        | 0 =>
          simp at hafter
          exact absurd hafter h
        | Nat.succ m =>
          refine ⟨m, row, by simpa using hrow, ?_, by simpa using hafter, hteq⟩
          intro k hk
          have := hbefore (k + 1) (by omega)
          simpa using this

theorem foldl_max_init_le (l : List WeatherRow) :
    ∀ m : ℚ, m ≤ l.foldl (fun m r => max m r.time) m := by
  induction l with
  | nil => intro m; exact le_refl m
  | cons x xs ih =>
    intro m
    exact le_trans (le_max_left m x.time) (ih (max m x.time))

theorem time_le_foldl_max (l : List WeatherRow) :
    ∀ (m : ℚ) (r : WeatherRow), r ∈ l → r.time ≤ l.foldl (fun m r => max m r.time) m := by
  induction l with
  | nil => intro m r hr; simp at hr
  | cons x xs ih =>
    intro m r hr
    rcases List.mem_cons.mp hr with h | h
    · subst h
      exact le_trans (le_max_right m r.time) (foldl_max_init_le xs (max m r.time))
    · exact ih (max m x.time) r h

theorem foldl_max_mem (l : List WeatherRow) :
    ∀ m : ℚ, l.foldl (fun m r => max m r.time) m = m
      ∨ ∃ r ∈ l, l.foldl (fun m r => max m r.time) m = r.time := by
  induction l with
  | nil => intro m; exact Or.inl rfl
  | cons x xs ih =>
    intro m
    rcases ih (max m x.time) with h | ⟨r, hr, hrt⟩
    · rcases max_choice m x.time with hm | hm
      · exact Or.inl (by simpa [hm] using h)
      · exact Or.inr ⟨x, List.mem_cons_self x xs, by simpa [hm] using h⟩
    · exact Or.inr ⟨r, List.mem_cons_of_mem x hr, hrt⟩

theorem discoveryTime_is_ub (rows : List WeatherRow) (r : WeatherRow) (hr : r ∈ rows) :
    r.time ≤ discoveryTime rows :=
  time_le_foldl_max rows _ r hr

theorem discoveryTime_is_attained (rows : List WeatherRow) (h : rows ≠ []) :
    ∃ r ∈ rows, discoveryTime rows = r.time := by
  match rows, h with
  | x :: xs, _ =>
    rcases foldl_max_mem (x :: xs) ((x :: xs).headD ⟨0, 0⟩).time with hm | hm
    · exact ⟨x, List.mem_cons_self x xs, hm⟩
    · exact hm

theorem classifyHeat_fst_nonneg (ldt udt correction t : ℚ) (hc : 0 ≤ correction) :
    0 ≤ (classifyHeat ldt udt correction t).1 := by
  unfold classifyHeat
  split_ifs with h1 h2
  · exact le_refl 0
  · exact mul_nonneg (by linarith) hc
  · exact le_refl 0

theorem basicHeat_nonneg (ldt correction t : ℚ) (hc : 0 ≤ correction) :
    0 ≤ basicHeat ldt correction t := by
  unfold basicHeat
  split_ifs with h1
  · exact mul_nonneg (by linarith) hc
  · exact le_refl 0

theorem le_stepAcc (c : EngineCtx) (hc : 0 ≤ c.correction) (acc : ℚ) (row : WeatherRow) :
    acc ≤ stepAcc c acc row := by
  have := classifyHeat_fst_nonneg c.ldt c.udt c.correction (effectiveTemp c acc row) hc
  unfold stepAcc sampleHeat
  linarith

theorem calcLoop_trace_chain (c : EngineCtx) (hc : 0 ≤ c.correction) :
    ∀ (rows : List WeatherRow) (acc : ℚ),
      List.Chain' (fun a b => a.Accumulated_ADH_Reverse ≤ b.Accumulated_ADH_Reverse)
        (calcLoop c acc rows).2.2
      ∧ ∀ r0, ((calcLoop c acc rows).2.2).head? = some r0
          → acc ≤ r0.Accumulated_ADH_Reverse := by
  intro rows
  induction rows with
  | nil =>
    intro acc
    exact ⟨by simp [calcLoop], by intro r0 h0; simp [calcLoop] at h0⟩
  | cons row rest ih =>
    intro acc
    by_cases h : stepAcc c acc row ≥ c.target_adh
    · refine ⟨by simp [calcLoop, h], ?_⟩
      intro r0 h0
      simp [calcLoop, h] at h0
      rw [← h0]
      exact le_stepAcc c hc acc row
    · obtain ⟨ihch, ihhd⟩ := ih (stepAcc c acc row)
      constructor
      · simp only [calcLoop, if_neg h]
        refine List.chain'_cons'.mpr ⟨?_, ihch⟩
        intro y hy
        have hb := ihhd y hy
        exact hb
      · intro r0 h0
        simp only [calcLoop, if_neg h, List.head?_cons, Option.some.injEq] at h0
        rw [← h0]
        exact le_stepAcc c hc acc row

theorem calcLoop_trace_times (c : EngineCtx) :
    ∀ (rows : List WeatherRow) (acc : ℚ),
      ((calcLoop c acc rows).2.2).map (fun tr => tr.Time)
        = (rows.take ((calcLoop c acc rows).2.2).length).map (fun r => r.time) := by
  intro rows
  induction rows with
  | nil => intro acc; simp [calcLoop]
  | cons row rest ih =>
    intro acc
    by_cases h : stepAcc c acc row ≥ c.target_adh
    · simp [calcLoop, h, sampleStep]
    · simp only [calcLoop, if_neg h, List.map_cons, List.length_cons, List.take_succ_cons]
      have ht : (sampleStep c acc row).Time = row.time := rfl
      rw [ht, ih (stepAcc c acc row)]

theorem calcLoop_total_of_some (c : EngineCtx) :
    ∀ (rows : List WeatherRow) (acc : ℚ),
      ((calcLoop c acc rows).1).isSome = true →
        c.target_adh ≤ (calcLoop c acc rows).2.1
        ∧ ((calcLoop c acc rows).2.2).getLast?.map (fun tr => tr.Accumulated_ADH_Reverse)
            = some ((calcLoop c acc rows).2.1) := by
  intro rows
  induction rows with
  | nil => intro acc h0; simp [calcLoop] at h0
  | cons row rest ih =>
    intro acc h0
    by_cases h : stepAcc c acc row ≥ c.target_adh
    · refine ⟨by simp [calcLoop, h], ?_⟩
      simp [calcLoop, h, sampleStep]
    · simp only [calcLoop, if_neg h] at h0 ⊢
      obtain ⟨h1, h2⟩ := ih (stepAcc c acc row) h0
      refine ⟨h1, ?_⟩
      cases htr : (calcLoop c (stepAcc c acc row) rest).2.2 with
      | nil => rw [htr] at h2; simp at h2
      | cons x xs =>
        rw [htr] at h2
        rw [List.getLast?_cons_cons]
        exact h2

/-!
Claim theorems.
-/

/-- C2: a sample whose fully corrected effective temperature lies strictly
between LDT and UDT contributes exactly (effective_temp - LDT) *
growth_rate_multiplier to the ADH accumulator, and a sample whose effective
temperature equals LDT or UDT contributes zero; the same formula with only
the LDT bound governs the basic engine of main.py. -/
theorem claim_contribution_formula :
    (∀ ldt udt correction t : ℚ, ldt < t → t < udt →
       (classifyHeat ldt udt correction t).1 = (t - ldt) * correction) ∧
    (∀ ldt udt correction t : ℚ, t = ldt ∨ t = udt →
       (classifyHeat ldt udt correction t).1 = 0) ∧
    (∀ (c : EngineCtx) (acc : ℚ) (row : WeatherRow),
       sampleHeat c acc row
         = (classifyHeat c.ldt c.udt c.correction (effectiveTemp c acc row)).1) ∧
    (∀ ldt correction t : ℚ, ldt < t → basicHeat ldt correction t = (t - ldt) * correction) ∧
    (∀ ldt correction t : ℚ, t = ldt → basicHeat ldt correction t = 0) := by
  refine ⟨?_, ?_, ?_, ?_, ?_⟩
  · intro ldt udt correction t h1 h2
    unfold classifyHeat
    rw [if_neg (not_le.mpr h2), if_pos h1]
  · intro ldt udt correction t h
    rcases h with h | h
    · subst h
      unfold classifyHeat
      split_ifs with h1 h2
      · rfl
      · exact absurd h2 (lt_irrefl _)
      · rfl
    · subst h
      unfold classifyHeat
      rw [if_pos (le_refl _)]
  · intro c acc row
    rfl
  · intro ldt correction t h1
    unfold basicHeat
    rw [if_pos (by linarith : t - ldt > 0)]
  · intro ldt correction t h
    subst h
    unfold basicHeat
    rw [if_neg (by simp)]

theorem claim_contribution_formula_witness :
    (classifyHeat 9 35 2 20).1 = (20 - 9) * 2
    ∧ (classifyHeat 9 35 2 9).1 = 0
    ∧ (classifyHeat 9 35 2 35).1 = 0
    ∧ basicHeat 9 2 20 = (20 - 9) * 2
    ∧ basicHeat 9 2 9 = 0 :=
  ⟨claim_contribution_formula.1 9 35 2 20 (by norm_num) (by norm_num),
   claim_contribution_formula.2.1 9 35 2 9 (Or.inl rfl),
   claim_contribution_formula.2.1 9 35 2 35 (Or.inr rfl),
   claim_contribution_formula.2.2.2.1 9 2 20 (by norm_num),
   claim_contribution_formula.2.2.2.2 9 2 9 rfl⟩

/-- C3: a sample whose effective temperature is at or above UDT contributes
zero heat and is flagged overheated, whatever LDT is (overheat dominates);
the appended trace record of such a sample carries the flag and leaves the
accumulator unchanged. -/
theorem claim_overheat_dominates :
    (∀ ldt udt correction t : ℚ, udt ≤ t → classifyHeat ldt udt correction t = (0, true)) ∧
    (∀ (c : EngineCtx) (acc : ℚ) (row : WeatherRow), c.udt ≤ effectiveTemp c acc row →
       (sampleStep c acc row).Overheat_Status = true
       ∧ (sampleStep c acc row).Accumulated_ADH_Reverse = acc) := by
  constructor
  · intro ldt udt correction t h
    unfold classifyHeat
    rw [if_pos h]
  · intro c acc row h
    have hz : classifyHeat c.ldt c.udt c.correction (effectiveTemp c acc row) = (0, true) := by
      unfold classifyHeat
      rw [if_pos h]
    constructor
    · show (classifyHeat c.ldt c.udt c.correction (effectiveTemp c acc row)).2 = true
      rw [hz]
    · show stepAcc c acc row = acc
      unfold stepAcc sampleHeat
      rw [hz]
      norm_num

theorem claim_overheat_dominates_witness :
    classifyHeat 9 35 1 40 = (0, true) :=
  claim_overheat_dominates.1 9 35 1 40 (by norm_num)

/-- C4: with a strictly positive growth-rate multiplier every per-sample
contribution is non-negative, so the accumulator never decreases from one
sample to the next: the running Accumulated_ADH_Reverse values along the
trace form a non-decreasing chain, and the basic engine's hourly
contribution is likewise non-negative. -/
theorem claim_accumulation_monotone :
    (∀ (c : EngineCtx) (acc : ℚ) (row : WeatherRow), 0 < c.correction →
       0 ≤ sampleHeat c acc row ∧ acc ≤ stepAcc c acc row) ∧
    (∀ (c : EngineCtx) (acc : ℚ) (rows : List WeatherRow), 0 < c.correction →
       List.Chain' (fun a b => a.Accumulated_ADH_Reverse ≤ b.Accumulated_ADH_Reverse)
         (calcLoop c acc rows).2.2) ∧
    (∀ ldt correction t : ℚ, 0 < correction → 0 ≤ basicHeat ldt correction t) := by
  refine ⟨?_, ?_, ?_⟩
  · intro c acc row hc
    exact ⟨classifyHeat_fst_nonneg c.ldt c.udt c.correction (effectiveTemp c acc row)
      (le_of_lt hc), le_stepAcc c (le_of_lt hc) acc row⟩
  · intro c acc rows hc
    exact (calcLoop_trace_chain c (le_of_lt hc) rows acc).1
  · intro ldt correction t hc
    exact basicHeat_nonneg ldt correction t (le_of_lt hc)

theorem claim_accumulation_monotone_witness :
    ((0:ℚ) ≤ sampleHeat ⟨9, 35, 1, 0, 0, none, none, [], 22, 10, 20⟩ 0 ⟨10, 20⟩
      ∧ (0:ℚ) ≤ stepAcc ⟨9, 35, 1, 0, 0, none, none, [], 22, 10, 20⟩ 0 ⟨10, 20⟩)
    ∧ List.Chain' (fun a b => a.Accumulated_ADH_Reverse ≤ b.Accumulated_ADH_Reverse)
        (calcLoop ⟨9, 35, 1, 0, 0, none, none, [], 22, 10, 20⟩ 0 [⟨10, 20⟩, ⟨9, 20⟩]).2.2
    ∧ (0:ℚ) ≤ basicHeat 9 1 20 :=
  ⟨claim_accumulation_monotone.1 ⟨9, 35, 1, 0, 0, none, none, [], 22, 10, 20⟩ 0 ⟨10, 20⟩
     (by norm_num),
   claim_accumulation_monotone.2.1 ⟨9, 35, 1, 0, 0, none, none, [], 22, 10, 20⟩ 0
     [⟨10, 20⟩, ⟨9, 20⟩] (by norm_num),
   claim_accumulation_monotone.2.2 9 1 20 (by norm_num)⟩

/-- C5: an active event applies its temperature delta and sets the
event-active flag exactly when hours_diff lies in the closed window
[end_hours_ago, end_hours_ago + duration]; the loop computes hours_diff
against the fixed discovery time, which the engine context takes to be the
maximum timestamp of the series. -/
theorem claim_event_window :
    (∀ (ep : EventParams) (hours_diff : ℚ), ep.active = true →
       (ep.end_hours_ago ≤ hours_diff ∧ hours_diff ≤ ep.end_hours_ago + ep.duration →
          eventStep (some ep) hours_diff = (ep.temp_increase, true))
       ∧ (¬(ep.end_hours_ago ≤ hours_diff ∧ hours_diff ≤ ep.end_hours_ago + ep.duration) →
          eventStep (some ep) hours_diff = (0, false))) ∧
    (∀ (c : EngineCtx) (acc : ℚ) (row : WeatherRow),
       effectiveTemp c acc row
         = soilStep c.soil_params row.temp c.avg_air_temp
           + dynamicHeatStep c.max_maggot_heat c.target_adh acc c.stages
           + c.sun_exposure
           + (eventStep c.event_params (c.discovery_time - row.time)).1
       ∧ (sampleStep c acc row).Event_Active
           = (eventStep c.event_params (c.discovery_time - row.time)).2) ∧
    (∀ (rows : List WeatherRow) (r : WeatherRow), r ∈ rows → r.time ≤ discoveryTime rows) ∧
    (∀ rows : List WeatherRow, rows ≠ [] → ∃ r ∈ rows, discoveryTime rows = r.time) ∧
    (∀ (data : SpeciesData) (target_adh correction max_maggot_heat sun_exposure : ℚ)
       (event_params : Option EventParams) (soil_params : Option SoilParams)
       (rows : List WeatherRow),
       (engineCtx data target_adh correction max_maggot_heat sun_exposure
          event_params soil_params rows).discovery_time = discoveryTime rows) := by
  refine ⟨?_, ?_, ?_, ?_, ?_⟩
  · intro ep hours_diff hact
    have he : eventStep (some ep) hours_diff
        = if ep.active = true then
            (if ep.end_hours_ago ≤ hours_diff ∧ hours_diff ≤ ep.end_hours_ago + ep.duration then
              (ep.temp_increase, true)
            else (0, false))
          else (0, false) := rfl
    constructor
    · intro hw
      rw [he, if_pos hact, if_pos hw]
    · intro hw
      rw [he, if_pos hact, if_neg hw]
  · intro c acc row
    exact ⟨rfl, rfl⟩
  · intro rows r hr
    exact discoveryTime_is_ub rows r hr
  · intro rows h
    exact discoveryTime_is_attained rows h
  · intro data target_adh correction max_maggot_heat sun_exposure event_params soil_params rows
    rfl

theorem claim_event_window_witness :
    eventStep (some ⟨true, 10, 3, 5⟩) 6 = (10, true)
    ∧ eventStep (some ⟨true, 10, 3, 5⟩) 4 = (0, false) :=
  ⟨(claim_event_window.1 ⟨true, 10, 3, 5⟩ 6 rfl).1 (by norm_num),
   (claim_event_window.1 ⟨true, 10, 3, 5⟩ 4 rfl).2 (by norm_num)⟩

/-- C6: for stage thresholds in developmental order, the self-heating curve
follows exactly the bins of get_dynamic_heat (0 below first instar, 30% of
max between first and second instar, 100% between second instar and feeding
end, 20% between feeding end and wander end, 0 beyond), and the loop keys
the curve to the remaining developmental distance target_adh - accumulated,
clamped at zero, whenever the maximum heat is strictly positive. -/
theorem claim_dynamic_heat_bins :
    (∀ (stages : List (String × ℚ)) (max_heat adh : ℚ),
       stageGetD stages "instar_1" ≤ stageGetD stages "instar_2" →
       stageGetD stages "instar_2" ≤ stageGetD stages "instar_3_feed" →
       stageGetD stages "instar_3_feed" ≤ stageGetD stages "instar_3_wander" →
       (adh < stageGetD stages "instar_1" →
          MasterPMICalculatorV16.get_dynamic_heat adh stages max_heat = 0)
       ∧ (stageGetD stages "instar_1" ≤ adh → adh < stageGetD stages "instar_2" →
          MasterPMICalculatorV16.get_dynamic_heat adh stages max_heat = max_heat * 0.3)
       ∧ (stageGetD stages "instar_2" ≤ adh → adh < stageGetD stages "instar_3_feed" →
          MasterPMICalculatorV16.get_dynamic_heat adh stages max_heat = max_heat * 1.0)
       ∧ (stageGetD stages "instar_3_feed" ≤ adh → adh < stageGetD stages "instar_3_wander" →
          MasterPMICalculatorV16.get_dynamic_heat adh stages max_heat = max_heat * 0.2)
       ∧ (stageGetD stages "instar_3_wander" ≤ adh →
          MasterPMICalculatorV16.get_dynamic_heat adh stages max_heat = 0)) ∧
    (∀ (max_maggot_heat target_adh accumulated_adh : ℚ) (stages : List (String × ℚ)),
       0 < max_maggot_heat →
       dynamicHeatStep max_maggot_heat target_adh accumulated_adh stages
         = MasterPMICalculatorV16.get_dynamic_heat
             (if target_adh - accumulated_adh < 0 then 0 else target_adh - accumulated_adh)
             stages max_maggot_heat) := by
  constructor
  · intro stages max_heat adh h12 h23 h34
    unfold MasterPMICalculatorV16.get_dynamic_heat
    refine ⟨?_, ?_, ?_, ?_, ?_⟩
    · intro h
      rw [if_pos h]
      norm_num
    · intro ha hb
      rw [if_neg (not_lt.mpr ha), if_pos hb]
    · intro ha hb
      rw [if_neg (not_lt.mpr (le_trans h12 ha)), if_neg (not_lt.mpr ha), if_pos hb]
    · intro ha hb
      rw [if_neg (not_lt.mpr (le_trans h12 (le_trans h23 ha))),
          if_neg (not_lt.mpr (le_trans h23 ha)), if_neg (not_lt.mpr ha), if_pos hb]
    · intro ha
      rw [if_neg (not_lt.mpr (le_trans h12 (le_trans h23 (le_trans h34 ha)))),
          if_neg (not_lt.mpr (le_trans h23 (le_trans h34 ha))),
          if_neg (not_lt.mpr (le_trans h34 ha)), if_neg (not_lt.mpr ha)]
      norm_num
  · intro max_maggot_heat target_adh accumulated_adh stages hmh
    simp only [dynamicHeatStep]
    rw [if_pos hmh]

/-- The stage table of the Korean Lucilia sericata entry of the insect_db. -/
def koreaStages : List (String × ℚ) :=
  ((List.lookup "Lucilia sericata (Korea - Busan)" MasterPMICalculatorV16.insect_db).getD
    { LDT := 0, UDT := 0, stages := [] }).stages

theorem claim_dynamic_heat_bins_witness :
    MasterPMICalculatorV16.get_dynamic_heat 400 koreaStages 5 = 5 * 1.0
    ∧ dynamicHeatStep 5 550 150 koreaStages
        = MasterPMICalculatorV16.get_dynamic_heat
            (if (550:ℚ) - 150 < 0 then 0 else 550 - 150) koreaStages 5 :=
  ⟨(claim_dynamic_heat_bins.1 koreaStages 5 400 (by decide) (by decide) (by decide)).2.2.1
     (by decide) (by decide),
   claim_dynamic_heat_bins.2 5 550 150 koreaStages (by norm_num)⟩

/-- C7: with the damping formula in effect (soil active, no measured
override), burial depth 0 leaves the base temperature unchanged, and a depth
at which the damping fraction saturates at 1 yields the period's mean
ambient temperature minus the depth-proportional cooling term applied when
the base temperature exceeds 20 degrees. -/
theorem claim_soil_damping_endpoints :
    ∀ (sp : SoilParams) (base_temp avg_air_temp : ℚ), sp.use_measured = false →
      (sp.depth = 0 → soilTemp sp base_temp avg_air_temp = base_temp) ∧
      (1 ≤ sp.depth * 0.015 →
        soilTemp sp base_temp avg_air_temp
          = avg_air_temp - (if base_temp > 20 then sp.depth * 0.05 else 0)) := by
  intro sp base_temp avg_air_temp hm
  constructor
  · intro hd
    simp only [soilTemp, hm, Bool.false_eq_true, if_false, hd]
    norm_num
  · intro hsat
    have h1 : min (1.0:ℚ) (sp.depth * 0.015) = 1 := by
      have hle : (1.0:ℚ) ≤ sp.depth * 0.015 := le_trans (by norm_num) hsat
      rw [min_eq_left hle]
      norm_num
    simp only [soilTemp, hm, Bool.false_eq_true, if_false, h1]
    split_ifs with h20
    · ring
    · ring

theorem claim_soil_damping_endpoints_witness :
    soilTemp ⟨true, false, 0, 0⟩ 25 18 = 25
    ∧ soilTemp ⟨true, false, 0, 100⟩ 25 18
        = 18 - (if (25:ℚ) > 20 then (100:ℚ) * 0.05 else 0) :=
  ⟨(claim_soil_damping_endpoints ⟨true, false, 0, 0⟩ 25 18 rfl).1 rfl,
   (claim_soil_damping_endpoints ⟨true, false, 0, 100⟩ 25 18 rfl).2 (by norm_num)⟩

/-- C1: both back-calculation engines stop exactly at the first sample (in
iteration order, newest to oldest) whose post-update accumulator reaches
target_adh and report that sample's own timestamp; when every prefix of the
series leaves the accumulator below target, the result is none, and
calculate_pmi then returns the tagged fail dict rather than any timestamp. -/
theorem claim_first_crossing_termination :
    (∀ (c : EngineCtx) (rows : List WeatherRow),
       (calcLoop c 0 rows).1 = none
         ↔ ∀ n < rows.length, (rows.take (n + 1)).foldl (stepAcc c) 0 < c.target_adh) ∧
    (∀ (c : EngineCtx) (rows : List WeatherRow) (t : ℚ),
       (calcLoop c 0 rows).1 = some t
         ↔ ∃ n row, rows[n]? = some row
             ∧ (∀ m < n, (rows.take (m + 1)).foldl (stepAcc c) 0 < c.target_adh)
             ∧ c.target_adh ≤ (rows.take (n + 1)).foldl (stepAcc c) 0
             ∧ t = row.time) ∧
    (∀ (ldt correction_factor target_adh : ℚ) (rows : List WeatherRow),
       (basicLoop ldt correction_factor target_adh 0 rows).1 = none
         ↔ ∀ n < rows.length,
             (rows.take (n + 1)).foldl (basicStep ldt correction_factor) 0 < target_adh) ∧
    (∀ (ldt correction_factor target_adh : ℚ) (rows : List WeatherRow) (t : ℚ),
       (basicLoop ldt correction_factor target_adh 0 rows).1 = some t
         ↔ ∃ n row, rows[n]? = some row
             ∧ (∀ m < n,
                 (rows.take (m + 1)).foldl (basicStep ldt correction_factor) 0 < target_adh)
             ∧ target_adh ≤ (rows.take (n + 1)).foldl (basicStep ldt correction_factor) 0
             ∧ t = row.time) ∧
    (∀ (species_key current_stage : String) (weather_data : List WeatherRow)
       (correction_factor : ℚ) (species_info : BasicSpecies) (target_adh : ℚ),
       List.lookup species_key BasicPMICalculator.insect_db = some species_info →
       List.lookup current_stage species_info.stages = some target_adh →
       (basicLoop species_info.LDT correction_factor target_adh 0 weather_data).1 = none →
       BasicPMICalculator.calculate_pmi species_key current_stage weather_data correction_factor
         = PMIResult.fail "데이터 기간 내에서 사망 시점을 특정할 수 없습니다. (데이터 부족)") := by
  refine ⟨?_, ?_, ?_, ?_, ?_⟩
  · intro c rows
    rw [calcLoop_fst c rows 0]
    exact firstHit_eq_none_iff (stepAcc c) c.target_adh rows 0
  · intro c rows t
    rw [calcLoop_fst c rows 0]
    exact firstHit_eq_some_iff (stepAcc c) c.target_adh rows 0 t
  · intro ldt correction_factor target_adh rows
    rw [basicLoop_fst ldt correction_factor target_adh rows 0]
    exact firstHit_eq_none_iff (basicStep ldt correction_factor) target_adh rows 0
  · intro ldt correction_factor target_adh rows t
    rw [basicLoop_fst ldt correction_factor target_adh rows 0]
    exact firstHit_eq_some_iff (basicStep ldt correction_factor) target_adh rows 0 t
  · intro species_key current_stage weather_data correction_factor species_info target_adh
      h1 h2 h3
    rcases hb : basicLoop species_info.LDT correction_factor target_adh 0 weather_data
      with ⟨o, a⟩
    rw [hb] at h3
    simp only at h3
    subst h3
    simp [BasicPMICalculator.calculate_pmi, h1, h2, hb]

theorem claim_first_crossing_termination_witness :
    (calcLoop ⟨9, 35, 1, 0, 0, none, none, [], 22, 10, 20⟩ 0 [⟨10, 20⟩, ⟨9, 20⟩]).1 = some 9
    ∧ (calcLoop ⟨9, 35, 1, 0, 0, none, none, [], 22, 10, 20⟩ 0 [⟨10, 10⟩]).1 = none
    ∧ (basicLoop 9 1 22 0 [⟨10, 20⟩, ⟨9, 20⟩]).1 = some 9
    ∧ BasicPMICalculator.calculate_pmi "lucilia_sericata" "egg" [⟨0, 5⟩] 1
        = PMIResult.fail "데이터 기간 내에서 사망 시점을 특정할 수 없습니다. (데이터 부족)" := by
  refine ⟨?_, ?_, ?_, ?_⟩
  · refine (claim_first_crossing_termination.2.1
      ⟨9, 35, 1, 0, 0, none, none, [], 22, 10, 20⟩ [⟨10, 20⟩, ⟨9, 20⟩] 9).mpr
      ⟨1, ⟨9, 20⟩, rfl, ?_, ?_, rfl⟩
    · intro m hm
      interval_cases m
      norm_num [stepAcc, sampleHeat, effectiveTemp, soilStep, dynamicHeatStep, eventStep,
        classifyHeat]
    · norm_num [stepAcc, sampleHeat, effectiveTemp, soilStep, dynamicHeatStep, eventStep,
        classifyHeat]
  · refine (claim_first_crossing_termination.1
      ⟨9, 35, 1, 0, 0, none, none, [], 22, 10, 20⟩ [⟨10, 10⟩]).mpr ?_
    intro n hn
    simp only [List.length_cons, List.length_nil] at hn
    interval_cases n
    norm_num [stepAcc, sampleHeat, effectiveTemp, soilStep, dynamicHeatStep, eventStep,
      classifyHeat]
  · refine (claim_first_crossing_termination.2.2.2.1 9 1 22 [⟨10, 20⟩, ⟨9, 20⟩] 9).mpr
      ⟨1, ⟨9, 20⟩, rfl, ?_, ?_, rfl⟩
    · intro m hm
      interval_cases m
      norm_num [basicStep, basicHeat]
    · norm_num [basicStep, basicHeat]
  · refine claim_first_crossing_termination.2.2.2.2 "lucilia_sericata" "egg" [⟨0, 5⟩] 1
      ⟨"구리금파리", 9.0, [("egg", 23), ("instar_1", 400), ("instar_2", 900),
        ("instar_3", 2000), ("pupa", 4500)]⟩ 23 rfl rfl ?_
    norm_num [basicLoop, basicStep, basicHeat]

/-- C10: whenever the master engine reports an onset time, the returned
total accumulated ADH is at least target_adh and equals the
Accumulated_ADH_Reverse field of the final trace record; and in every case
the trace carries exactly one record per processed sample, in order,
including samples that contributed zero. -/
theorem claim_result_trace_invariants :
    ∀ (c : EngineCtx) (rows : List WeatherRow),
      (∀ t : ℚ, (calcLoop c 0 rows).1 = some t →
         c.target_adh ≤ (calcLoop c 0 rows).2.1
         ∧ ((calcLoop c 0 rows).2.2).getLast?.map (fun tr => tr.Accumulated_ADH_Reverse)
             = some ((calcLoop c 0 rows).2.1))
      ∧ ((calcLoop c 0 rows).2.2).map (fun tr => tr.Time)
          = (rows.take ((calcLoop c 0 rows).2.2).length).map (fun r => r.time) := by
  intro c rows
  constructor
  · intro t ht
    exact calcLoop_total_of_some c rows 0 (by rw [ht]; rfl)
  · exact calcLoop_trace_times c rows 0

theorem claim_result_trace_invariants_witness :
    (22:ℚ) ≤ (calcLoop ⟨9, 35, 1, 0, 0, none, none, [], 22, 10, 20⟩ 0
        [⟨10, 20⟩, ⟨9, 20⟩]).2.1
    ∧ ((calcLoop ⟨9, 35, 1, 0, 0, none, none, [], 22, 10, 20⟩ 0
        [⟨10, 20⟩, ⟨9, 20⟩]).2.2).getLast?.map (fun tr => tr.Accumulated_ADH_Reverse)
        = some ((calcLoop ⟨9, 35, 1, 0, 0, none, none, [], 22, 10, 20⟩ 0
            [⟨10, 20⟩, ⟨9, 20⟩]).2.1) :=
  (claim_result_trace_invariants ⟨9, 35, 1, 0, 0, none, none, [], 22, 10, 20⟩
    [⟨10, 20⟩, ⟨9, 20⟩]).1 9
    (by norm_num [calcLoop, stepAcc, sampleHeat, effectiveTemp, soilStep, dynamicHeatStep,
      eventStep, classifyHeat, sampleStep])

/-- C9 counterexample: MasterPMICalculatorV16.calculate performs unvalidated
dict lookups, so a species absent from the reference table makes the
function raise a KeyError (modelled as Except.error) instead of returning a
tagged success/failure result: the claim that the engine never surfaces an
unhandled exception fails on this concrete input ("Musca domestica" is not a
key of the insect_db). -/
theorem claim_unknown_reference_cex :
    MasterPMICalculatorV16.calculate "Musca domestica" "egg" [⟨0, 25⟩] 1 0 0 none none
      = Except.error (PyError.keyError "Musca domestica") := rfl

/-- C9 amended: BasicPMICalculator.calculate_pmi validates species and stage
against its reference table and reports an unknown name as a tagged error
dict before any accumulation; MasterPMICalculatorV16.calculate instead
propagates the KeyError of its unvalidated dict lookups for an unknown
species or stage. -/
theorem claim_unknown_reference_handling :
    (∀ (species_key current_stage : String) (weather_data : List WeatherRow)
       (correction_factor : ℚ),
       List.lookup species_key BasicPMICalculator.insect_db = none →
       BasicPMICalculator.calculate_pmi species_key current_stage weather_data correction_factor
         = PMIResult.error "알 수 없는 파리 종류입니다.") ∧
    (∀ (species_key current_stage : String) (weather_data : List WeatherRow)
       (correction_factor : ℚ) (species_info : BasicSpecies),
       List.lookup species_key BasicPMICalculator.insect_db = some species_info →
       List.lookup current_stage species_info.stages = none →
       BasicPMICalculator.calculate_pmi species_key current_stage weather_data correction_factor
         = PMIResult.error "알 수 없는 성장 단계입니다.") ∧
    (∀ (species_name stage : String) (df_weather : List WeatherRow)
       (correction max_maggot_heat sun_exposure : ℚ)
       (event_params : Option EventParams) (soil_params : Option SoilParams),
       List.lookup species_name MasterPMICalculatorV16.insect_db = none →
       MasterPMICalculatorV16.calculate species_name stage df_weather correction
           max_maggot_heat sun_exposure event_params soil_params
         = Except.error (PyError.keyError species_name)) ∧
    (∀ (species_name stage : String) (df_weather : List WeatherRow)
       (correction max_maggot_heat sun_exposure : ℚ)
       (event_params : Option EventParams) (soil_params : Option SoilParams)
       (data : SpeciesData),
       List.lookup species_name MasterPMICalculatorV16.insect_db = some data →
       List.lookup stage data.stages = none →
       MasterPMICalculatorV16.calculate species_name stage df_weather correction
           max_maggot_heat sun_exposure event_params soil_params
         = Except.error (PyError.keyError stage)) := by
  refine ⟨?_, ?_, ?_, ?_⟩
  · intro species_key current_stage weather_data correction_factor h1
    simp [BasicPMICalculator.calculate_pmi, h1]
  · intro species_key current_stage weather_data correction_factor species_info h1 h2
    simp [BasicPMICalculator.calculate_pmi, h1, h2]
  · intro species_name stage df_weather correction max_maggot_heat sun_exposure
      event_params soil_params h1
    simp [MasterPMICalculatorV16.calculate, h1]
  · intro species_name stage df_weather correction max_maggot_heat sun_exposure
      event_params soil_params data h1 h2
    simp [MasterPMICalculatorV16.calculate, h1, h2]

theorem claim_unknown_reference_handling_witness :
    BasicPMICalculator.calculate_pmi "drosophila_melanogaster" "egg" [] 1
      = PMIResult.error "알 수 없는 파리 종류입니다."
    ∧ BasicPMICalculator.calculate_pmi "lucilia_sericata" "imago" [] 1
      = PMIResult.error "알 수 없는 성장 단계입니다."
    ∧ MasterPMICalculatorV16.calculate "Drosophila melanogaster" "egg" [] 1 0 0 none none
      = Except.error (PyError.keyError "Drosophila melanogaster")
    ∧ MasterPMICalculatorV16.calculate "Lucilia sericata (Global/Avg)" "imago" [] 1 0 0
        none none
      = Except.error (PyError.keyError "imago") :=
  ⟨claim_unknown_reference_handling.1 "drosophila_melanogaster" "egg" [] 1 rfl,
   claim_unknown_reference_handling.2.1 "lucilia_sericata" "imago" [] 1
     ⟨"구리금파리", 9.0, [("egg", 23), ("instar_1", 400), ("instar_2", 900),
       ("instar_3", 2000), ("pupa", 4500)]⟩ rfl rfl,
   claim_unknown_reference_handling.2.2.1 "Drosophila melanogaster" "egg" [] 1 0 0
     none none rfl,
   claim_unknown_reference_handling.2.2.2 "Lucilia sericata (Global/Avg)" "imago" [] 1 0 0
     none none
     ⟨9.0, 35.0, [("egg", 20), ("instar_1", 300), ("instar_2", 800),
       ("instar_3_feed", 1400), ("instar_3_wander", 2400), ("pupa", 4000)]⟩ rfl rfl⟩

/-- C8: the cooling estimator fails (returns the invalid-input result) if
and only if rectal_temp - ambient_temp or 37.2 - ambient_temp is
non-positive; otherwise (for physically positive body weight and clothing
factor) it returns an hour estimate that is zero when the normalized ratio
y = (rectal - ambient) / (37.2 - ambient) is at least 1, and strictly
positive when y < 1. -/
theorem claim_henssge_validity (rectal_temp ambient_temp body_weight clothing_factor : ℝ)
    (hw : 0 < body_weight) (hc : 0 < clothing_factor) :
    (HenssgeCalculator.calculate rectal_temp ambient_temp body_weight clothing_factor = none
       ↔ rectal_temp - ambient_temp ≤ 0 ∨ 37.2 - ambient_temp ≤ 0) ∧
    (0 < rectal_temp - ambient_temp → 0 < 37.2 - ambient_temp →
       ∃ est ci,
         HenssgeCalculator.calculate rectal_temp ambient_temp body_weight clothing_factor
           = some (est, ci)
         ∧ (1 ≤ (rectal_temp - ambient_temp) / (37.2 - ambient_temp) → est = 0)
         ∧ ((rectal_temp - ambient_temp) / (37.2 - ambient_temp) < 1 → 0 < est)) := by
  constructor
  · by_cases h : rectal_temp - ambient_temp ≤ 0 ∨ 37.2 - ambient_temp ≤ 0
    · unfold HenssgeCalculator.calculate
      rw [if_pos h]
      simpa using h
    · unfold HenssgeCalculator.calculate
      rw [if_neg h]
      exact ⟨fun hx => absurd hx (by simp), fun hx => absurd hx h⟩
  · intro h1 h2
    have hcond : ¬(rectal_temp - ambient_temp ≤ 0 ∨ 37.2 - ambient_temp ≤ 0) := by
      push_neg
      exact ⟨h1, h2⟩
    set E : ℝ :=
      (if ((rectal_temp - ambient_temp) / (37.2 - ambient_temp)) ≥ (1.0:ℝ) then 0
       else -10.0 * Real.log ((rectal_temp - ambient_temp) / (37.2 - ambient_temp))
              * (Real.rpow (body_weight / 70.0) 0.333 * clothing_factor)) with hE
    refine ⟨E, 2.0 + E * 0.1, ?_, ?_, ?_⟩
    · unfold HenssgeCalculator.calculate
      rw [if_neg hcond]
    · intro hge
      have hge' : (rectal_temp - ambient_temp) / (37.2 - ambient_temp) ≥ (1.0:ℝ) := by
        rw [ge_iff_le, (by norm_num : (1.0:ℝ) = 1)]
        exact hge
      rw [hE, if_pos hge']
    · intro hlt
      have hlt' : ¬((rectal_temp - ambient_temp) / (37.2 - ambient_temp) ≥ (1.0:ℝ)) := by
        rw [ge_iff_le, (by norm_num : (1.0:ℝ) = 1)]
        exact not_le.mpr hlt
      rw [hE, if_neg hlt']
      have hypos : 0 < (rectal_temp - ambient_temp) / (37.2 - ambient_temp) := div_pos h1 h2
      have hlog : Real.log ((rectal_temp - ambient_temp) / (37.2 - ambient_temp)) < 0 :=
        Real.log_neg hypos hlt
      have htf : 0 < Real.rpow (body_weight / 70.0) 0.333 * clothing_factor :=
        mul_pos (Real.rpow_pos_of_pos (div_pos hw (by norm_num)) 0.333) hc
      have hfac : (0:ℝ)
          < 10 * (-Real.log ((rectal_temp - ambient_temp) / (37.2 - ambient_temp)))
            * (Real.rpow (body_weight / 70.0) 0.333 * clothing_factor) :=
        mul_pos (mul_pos (by norm_num) (neg_pos.mpr hlog)) htf
      nlinarith [hfac]

theorem claim_henssge_validity_witness :
    HenssgeCalculator.calculate 18 20 70 1 = none
    ∧ ∃ est ci, HenssgeCalculator.calculate 36 20 70 1 = some (est, ci) ∧ 0 < est := by
  constructor
  · exact (claim_henssge_validity 18 20 70 1 (by norm_num) (by norm_num)).1.mpr
      (Or.inl (by norm_num))
  · obtain ⟨est, ci, heq, _, hpos⟩ :=
      (claim_henssge_validity 36 20 70 1 (by norm_num) (by norm_num)).2
        (by norm_num) (by norm_num)
    exact ⟨est, ci, heq, hpos (by norm_num)⟩
